import Mathlib

/-!
Verification of the travel-assistant backend (FastAPI app) against its
natural-language specification.

The Lean definitions below are a shallow embedding of the Python source:

* `app/schemas.py`           — pydantic request/verdict models
* `app/routes.py`            — the `/chat` handler `unified_chat` and the
                               rejection stream `get_error_stream_response`
* `app/services.py`          — `generate_stream`, `get_complete_response`,
                               `get_complete_response_explore`
* `app/memory.py`            — `check_user`
* `app/api/validator/services/openai_service.py` — query classification
* `app/api/validator/services/validator_service.py` — research validation
* `app/api/validator/routes.py` — background research fan-out

External effects (LLM calls, HTTP, the memory store, wall-clock time) are
passed in as explicit oracle arguments; the control flow around them is
transcribed from the source.
-/

/-! ## Data model (app/schemas.py) -/

/-- `class global_input_guardrail(BaseModel)` — the coarse validation verdict
(app/schemas.py lines 29-33): fields `isValid`, `reason`, `isTravelRelated`,
`solution`. -/
structure global_input_guardrail where
  isValid : Bool
  reason : String
  isTravelRelated : Bool
  solution : String
deriving Repr, DecidableEq

/-- `class global_travel_guardrail(BaseModel)` — the fine (explore) verdict
(app/schemas.py lines 36-41): fields `isValid`, `reason`, `isTravelRelated`,
`isPlanRelated`, `travel_type`.  Note: the class declares no `solution`
field. -/
structure global_travel_guardrail where
  isValid : Bool
  reason : String
  isTravelRelated : Bool
  isPlanRelated : Bool
  travel_type : String
deriving Repr, DecidableEq

/-- `class QueryRequest(BaseModel)` (app/schemas.py lines 5-11). -/
structure QueryRequest where
  message : String
  user_id : String
  reference : String
  param : String
  threadId : Option String
deriving Repr, DecidableEq

/-- Python attribute access `output.solution` performed at app/routes.py
line 73, where `output : global_travel_guardrail`.  The pydantic class
(app/schemas.py lines 36-41) declares only `isValid`, `reason`,
`isTravelRelated`, `isPlanRelated` and `travel_type`, so this access raises
`AttributeError`; we model the raised exception as an `Except.error` carrying
the Python error message. -/
def global_travel_guardrail.solutionAttr (_ : global_travel_guardrail) :
    Except String String :=
  Except.error "'global_travel_guardrail' object has no attribute 'solution'"

/-! ## The /chat handler's routing decision (app/routes.py, `unified_chat`) -/

/-- The chunk list hard-coded in `get_error_stream_response`
(app/routes.py lines 43-51), built from the verdict's reason and solution. -/
def error_stream_chunks (reason solution : String) : List String :=
  ["\x7b\"", "answer", "\":\"",
   "Your", " message", " was", " blocked", " by", " our", " content",
   " policy", " because", " it", " was", " flagged", " as",
   " inappropriate. \n\n",
   " Reason:", " " ++ reason ++ " \n\n",
   "Solution:", " " ++ solution,
   ""]

/-- The response `unified_chat` resolves a request to, abstracting the body
of each branch: the streamed rejection (`get_error_stream_response`), the two
structured one-shot responses, or the token stream. -/
inductive ChatResponse where
  | rejectStream (reason solution : String)
  | structuredTrip (message : String) (threadId : Option String) (param : String)
  | structuredExplore (message : String) (threadId : Option String) (param : String)
  | tokenStream (message : String) (threadId : Option String) (reference : String)
deriving Repr, DecidableEq

/-- Outcome of the handler: a response, or `HTTPException(status_code, detail)`
raised by the outer `except` of `unified_chat` (app/routes.py lines 127-128). -/
inductive HttpResult where
  | response (r : ChatResponse)
  | httpError (status_code : Nat) (detail : String)
deriving Repr, DecidableEq

/-- The routing decision of `unified_chat` (app/routes.py lines 17-128).
`thread_id` is the value returned by `check_user`; `exploreVerdict` and
`defaultVerdict` are the classifier outputs the two branches would parse
(only the branch selected by `request.param` consults its verdict). -/
def unified_chat (request : QueryRequest) (thread_id : Option String)
    (exploreVerdict : global_travel_guardrail)
    (defaultVerdict : global_input_guardrail) : HttpResult :=
  if request.param = "explore" then
    if !exploreVerdict.isValid then
      -- `get_error_stream_response(output.reason, output.solution)`:
      -- evaluating `output.solution` raises, the outer except returns 500.
      match exploreVerdict.solutionAttr with
      | Except.ok sol =>
          HttpResult.response (ChatResponse.rejectStream exploreVerdict.reason sol)
      | Except.error e => HttpResult.httpError 500 e
    else if exploreVerdict.isPlanRelated then
      HttpResult.response
        (ChatResponse.structuredTrip request.message thread_id request.param)
    else if exploreVerdict.isTravelRelated
        && exploreVerdict.travel_type = "specific-search-query" then
      HttpResult.response
        (ChatResponse.structuredExplore request.message thread_id request.param)
    else
      HttpResult.response
        (ChatResponse.tokenStream request.message thread_id request.reference)
  else
    if !defaultVerdict.isValid then
      HttpResult.response
        (ChatResponse.rejectStream defaultVerdict.reason defaultVerdict.solution)
    else if defaultVerdict.isTravelRelated then
      HttpResult.response
        (ChatResponse.structuredTrip request.message thread_id request.param)
    else
      HttpResult.response
        (ChatResponse.tokenStream request.message thread_id request.reference)

/-! ## Streaming responder (app/services.py, `generate_stream`)

`generate_stream` samples `time.time()` at function entry (`start_time`),
once when the first non-empty token chunk arrives (`first_chunk_time`), and
once after the token loop (`end_time`).  We model the wall clock as a
function `clock : Nat -> Nat` giving the successive readings, and the
model-side behaviour as a `ModelRun`: the list of token chunks delivered by
`result.stream_events()`, possibly cut short by an exception.  An exception
in the code before the first `yield` (in `add_message`, `get_message`,
`research_further` or `Runner.run_streamed`) is `failBefore`. -/

/-- One server-sent-event frame of `generate_stream` (app/services.py
lines 29, 38, 42, 45, 48), identified by its JSON payload. -/
inductive Frame where
  | started (start_time : Nat) (threadId : Option String)
  | ttfb (time_to_first_byte : Nat)
  | content (chunk : String)
  | done (total_time : Nat)
  | error (msg : String)
deriving Repr, DecidableEq

/-- The JSON key identifying a frame. -/
inductive FrameKind where
  | started
  | ttfb
  | content
  | done
  | error
deriving Repr, DecidableEq

def Frame.kind : Frame → FrameKind
  | Frame.started _ _ => FrameKind.started
  | Frame.ttfb _ => FrameKind.ttfb
  | Frame.content _ => FrameKind.content
  | Frame.done _ => FrameKind.done
  | Frame.error _ => FrameKind.error

/-- How one invocation of the underlying model behaves: it either delivers
all its token chunks and finishes (`ok`), raises before the first frame is
emitted (`failBefore`), or raises after delivering some chunks (`failMid`). -/
inductive ModelRun where
  | ok (chunks : List String)
  | failBefore (msg : String)
  | failMid (chunks : List String) (msg : String)
deriving Repr, DecidableEq

/-- The token loop of `generate_stream` (app/services.py lines 31-42):
empty chunks are skipped (`if chunk:`); the first non-empty chunk is
preceded by the one-time `time_to_first_byte` frame. -/
def streamLoop (ttfbVal : Nat) : List String → Bool → List Frame
  | [], _ => []
  | c :: cs, seen =>
    if c = "" then streamLoop ttfbVal cs seen
    else if seen then Frame.content c :: streamLoop ttfbVal cs true
    else Frame.ttfb ttfbVal :: Frame.content c :: streamLoop ttfbVal cs true

/-- The frames emitted by `generate_stream` (app/services.py lines 12-55).
`clock i` is the value returned by the `i`-th call of `time.time()`:
reading 0 is `start_time`; reading 1 is `first_chunk_time` when some
non-empty chunk arrives, otherwise `end_time`; reading 2 is `end_time` when
a `first_chunk_time` was taken. -/
def generate_stream (run : ModelRun) (clock : Nat → Nat)
    (thread_id : Option String) : List Frame :=
  let start_time := clock 0
  match run with
  | ModelRun.failBefore msg => [Frame.error msg]
  | ModelRun.ok chunks =>
      let body := streamLoop (clock 1 - start_time) chunks false
      let endReading := if chunks.any (fun c => c ≠ "") then 2 else 1
      Frame.started start_time thread_id ::
        body ++ [Frame.done (clock endReading - start_time)]
  | ModelRun.failMid chunks msg =>
      Frame.started start_time thread_id ::
        streamLoop (clock 1 - start_time) chunks false ++ [Frame.error msg]

/-! ## Structured responders (app/services.py, `get_complete_response` and
`get_complete_response_explore`)

The agent invocation `Runner.run(... , message)` and the subsequent
`add_message` are oracles (`agent_run`, `add_msg`); the wrapping of any raised
exception into `Exception("Agent error: " + str(e))` is the transcribed
control flow. -/

/-- The `timing_info` dict built at app/services.py lines 72-77 / 102-107. -/
structure TimingInfo where
  param : String
  threadId : Option String
  total_time : Nat
  response_type : String
deriving Repr, DecidableEq

/-- `get_complete_response` (app/services.py lines 57-82). -/
def get_complete_response (agent_run : Except String String)
    (add_msg : Except String Unit) (clock : Nat → Nat)
    (thread_id : Option String) (mode : String) :
    Except String (String × TimingInfo) :=
  match agent_run with
  | Except.error e => Except.error ("Agent error: " ++ e)
  | Except.ok full_response =>
      match add_msg with
      | Except.error e => Except.error ("Agent error: " ++ e)
      | Except.ok _ =>
          Except.ok (full_response,
            { param := mode, threadId := thread_id,
              total_time := clock 1 - clock 0, response_type := "non_streaming" })

/-- `get_complete_response_explore` (app/services.py lines 86-112): identical
wrapping around `Runner.run(explore_planning_agent, message)`. -/
def get_complete_response_explore (agent_run : Except String String)
    (add_msg : Except String Unit) (clock : Nat → Nat)
    (thread_id : Option String) (mode : String) :
    Except String (String × TimingInfo) :=
  match agent_run with
  | Except.error e => Except.error ("Agent error: " ++ e)
  | Except.ok full_response =>
      match add_msg with
      | Except.error e => Except.error ("Agent error: " ++ e)
      | Except.ok _ =>
          Except.ok (full_response,
            { param := mode, threadId := thread_id,
              total_time := clock 1 - clock 0, response_type := "non_streaming" })

/-- What the `/chat` handler does with a structured-responder call
(app/routes.py lines 78-82 and 115-119 together with the outer `except` at
lines 127-128): `JSONResponse({response, type: "non-streaming"})` on success,
`HTTPException(500, str(e))` when the call raised. -/
inductive StructuredOutcome where
  | jsonResponse (response : String × TimingInfo) (type_ : String)
  | httpError (status_code : Nat) (detail : String)
deriving Repr, DecidableEq

def structured_call (result : Except String (String × TimingInfo)) :
    StructuredOutcome :=
  match result with
  | Except.ok response_content =>
      StructuredOutcome.jsonResponse response_content "non-streaming"
  | Except.error e => StructuredOutcome.httpError 500 e

/-! ## Memory store (app/memory.py, `check_user`)

The Zep client calls are oracles over an abstract store state.  Each call
either succeeds, returning the updated state, or raises, carrying the Python
error message and the state at the point of the raise. -/

/-- Abstract state of the external memory store: the registered user ids and
the `(thread_id, user_id)` pairs created. -/
structure MemState where
  users : List String
  threads : List (String × String)
deriving Repr, DecidableEq

/-- Outcome of one Zep client call: `Except.error` models a raised
exception. -/
abbrev ZepResult (α : Type) := Except (String × MemState) (α × MemState)

/-- The three Zep client operations `check_user` performs
(app/memory.py lines 17, 20-22, 26-29). -/
structure ZepClient where
  user_get : String → MemState → ZepResult Unit
  user_add : String → MemState → ZepResult Unit
  thread_create : String → String → MemState → ZepResult Unit

/-- `check_user` (app/memory.py lines 10-35).  `fresh` is the
`uuid.uuid4().hex` value generated at line 25.  The inner bare `except`
around `client.user.get` falls through to `client.user.add`; the outer
`except Exception` turns any raise into a `None` return. -/
def check_user (client : ZepClient) (user_id : String) (fresh : String)
    (st : MemState) : Option String × MemState :=
  if user_id = "" then (none, st)
  else
    let afterUser : ZepResult Unit :=
      match client.user_get user_id st with
      | Except.ok (u, st1) => Except.ok (u, st1)
      | Except.error (_, st1) => client.user_add user_id st1
    let result : ZepResult String :=
      match afterUser with
      | Except.ok (_, st1) =>
          match client.thread_create fresh user_id st1 with
          | Except.ok (_, st2) => Except.ok (fresh, st2)
          | Except.error e => Except.error e
      | Except.error e => Except.error e
    match result with
    | Except.ok (t, st2) => (some t, st2)
    | Except.error (_, stE) => (none, stE)

/-- The reference behaviour of the Zep store itself: `user.get` fails iff the
user is unknown, `user.add` registers the user, `thread.create` records the
pair.  Used to run `check_user` against a working store. -/
def zepStore : ZepClient where
  user_get := fun user_id st =>
    if user_id ∈ st.users then Except.ok ((), st)
    else Except.error ("user " ++ user_id ++ " not found", st)
  user_add := fun user_id st =>
    Except.ok ((), { st with users := user_id :: st.users })
  thread_create := fun thread_id user_id st =>
    Except.ok ((), { st with threads := (thread_id, user_id) :: st.threads })

/-- Step 1 of `unified_chat` (app/routes.py lines 26-27): the handler's
thread id is `check_user(request.user_id)`; `request.threadId` is not
read. -/
def unified_chat_thread_setup (client : ZepClient) (request : QueryRequest)
    (fresh : String) (st : MemState) : Option String × MemState :=
  check_user client request.user_id fresh st

/-! ## Query classification (app/api/validator/services/openai_service.py) -/

/-- `class QueryType(str, Enum)`
(app/api/validator/models/schemas.py lines 10-14). -/
inductive QueryType where
  | generic
  | specific
  | ignore
deriving Repr, DecidableEq

/-- `.value` of the enum member. -/
def QueryType.value : QueryType → String
  | QueryType.generic => "generic"
  | QueryType.specific => "specific"
  | QueryType.ignore => "ignore"

/-- `class QueryClassification(BaseModel)`
(app/api/validator/models/schemas.py lines 17-27). -/
structure QueryClassification where
  type : QueryType
  queries : List String
deriving Repr, DecidableEq

/-- The dict `{"type": ..., "queries": ...}` returned by `classify_query`
(app/api/validator/services/openai_service.py lines 49-52). -/
structure ClassifyOutput where
  type : String
  queries : List String
deriving Repr, DecidableEq

/-- `OpenAIService._validate_response`
(app/api/validator/services/openai_service.py lines 58-65): three sequential
arity checks, each raising `ValueError` on violation. -/
def OpenAIService.validate_response (result : QueryClassification) :
    Except String Unit :=
  if result.type.value = "generic" ∧ result.queries.length ≠ 5 then
    Except.error ("Generic query should have 5 sub-queries, got "
      ++ toString result.queries.length)
  else if result.type.value = "specific" ∧ result.queries.length ≠ 1 then
    Except.error ("Specific query should have 1 query, got "
      ++ toString result.queries.length)
  else if result.type.value = "ignore" ∧ result.queries.length ≠ 0 then
    Except.error ("Ignore type should have 0 queries, got "
      ++ toString result.queries.length)
  else Except.ok ()

/-- `OpenAIService.classify_query`
(app/api/validator/services/openai_service.py lines 28-56).  `parsed` is the
outcome of the OpenAI call and pydantic parse (lines 32-44); any exception in
the `try` body is re-raised as `RuntimeError("Error classifying query: ...")`
(line 56). -/
def OpenAIService.classify_query (parsed : Except String QueryClassification) :
    Except String ClassifyOutput :=
  let body : Except String ClassifyOutput :=
    match parsed with
    | Except.error e => Except.error e
    | Except.ok result =>
        match OpenAIService.validate_response result with
        | Except.error e => Except.error e
        | Except.ok _ =>
            Except.ok { type := result.type.value, queries := result.queries }
  match body with
  | Except.ok v => Except.ok v
  | Except.error e => Except.error ("Error classifying query: " ++ e)

/-- The research fan-out of `process_in_background`
(app/api/validator/routes.py lines 317-371): the list of sub-queries for
which a `process_query_research` task is created.  A raised classification
error is caught by the outer `except` (line 363), so no task is created;
an empty `queries` list also creates none (`if classification.get("queries")`,
line 337). -/
def process_in_background_fanout
    (classification : Except String ClassifyOutput) : List String :=
  match classification with
  | Except.error _ => []
  | Except.ok c => if c.queries.isEmpty then [] else c.queries

/-! ## Research validation (app/api/validator/services/validator_service.py) -/

/-- The dict returned by each of `search_openai`, `search_perplexity`,
`search_tavily` (app/api/validator/services/validator_service.py): `success`,
and on success a `content` string and `citations` list.  A missing or empty
`content` is modelled as `""` (both are falsy under `r.get("content")`). -/
structure SearchResult where
  success : Bool
  source : String
  content : String
  citations : List String
deriving Repr, DecidableEq

/-- The JSON object the synthesis LLM call parses into
(app/api/validator/services/validator_service.py lines 288-294).  Each field
is optional: `none` models a missing key or JSON `null` (both make
`synthesis.get(...)` fall back). -/
structure Synthesis where
  similarity_score : Option String
  combined_research : Option String
  location : Option String
deriving Repr, DecidableEq

/-- `ResearchValidator.calculate_similarity_and_synthesize`
(app/api/validator/services/validator_service.py lines 235-337): sources with
`success` and truthy `content` are kept; with fewer than two, the synthesis
LLM is never called and `{"success": False, "error": ...}` is returned;
otherwise the call's outcome `llm` is the result. -/
def calculate_similarity_and_synthesize (research_results : List SearchResult)
    (llm : Except String Synthesis) : Except String Synthesis :=
  let successful_results :=
    research_results.filter (fun r => r.success && r.content ≠ "")
  if successful_results.length < 2 then
    Except.error "Need at least 2 successful sources with content to synthesize."
  else llm

/-- The dict returned by `get_validated_research` and `validate_research`. -/
structure ValidatedResearch where
  score : String
  research : String
  location : String
  citations : List String
deriving Repr, DecidableEq

/-- Python `str.strip()` with no argument: remove leading and trailing
whitespace (used at app/api/validator/services/validator_service.py
line 395). -/
def pyStrip (s : String) : String :=
  ((s.data.dropWhile (fun c => c.isWhitespace)).reverse.dropWhile
      (fun c => c.isWhitespace)).reverse.asString

/-- Order-preserving de-duplication with a `seen` set
(app/api/validator/services/validator_service.py lines 376-381). -/
def uniqueCitations : List String → List String → List String
  | [], _ => []
  | c :: cs, seen =>
    if c ∈ seen then uniqueCitations cs seen
    else c :: uniqueCitations cs (c :: seen)

/-- The location null-handling ladder of `get_validated_research`
(app/api/validator/services/validator_service.py lines 386-398):
`location = synthesis.get("location", "Unknown")`, then the null-ish
sentinel check, then `strip()` with an empty-after-strip fallback. -/
def locationLadder (locOpt : Option String) : String :=
  let location0 :=
    match locOpt with
    | none => "Unknown"
    | some l => l
  let location1 :=
    if location0 = "" ∨ location0 ∈ ["null", "None", "", "N/A", "n/a"] then
      "Unknown"
    else location0
  if pyStrip location1 = "" then "Unknown" else pyStrip location1

/-- `ResearchValidator.get_validated_research`
(app/api/validator/services/validator_service.py lines 339-415).  The three
backend calls and the synthesis LLM call are oracles; citation aggregation,
the location null-handling ladder (lines 388-398) and the two result shapes
(lines 403-415) are transcribed. -/
def get_validated_research (openai_result perplexity_result tavily_result :
    SearchResult) (llm : Except String Synthesis) : ValidatedResearch :=
  let research_results := [openai_result, perplexity_result, tavily_result]
  let synthesis_result :=
    calculate_similarity_and_synthesize research_results llm
  let all_citations :=
    (research_results.filter (fun r => r.success)).flatMap
      (fun r => r.citations)
  let unique_citations := uniqueCitations all_citations []
  match synthesis_result with
  | Except.ok synthesis =>
      { score :=
          (match synthesis.similarity_score with
           | some s => s
           | none => "0") ++ "/3",
        research :=
          match synthesis.combined_research with
          | some r => r
          | none => "",
        location := locationLadder synthesis.location,
        citations := unique_citations }
  | Except.error e =>
      { score := "0/3",
        research := "Error: " ++ e,
        location := "Unknown",
        citations := unique_citations }

/-- `validate_research`
(app/api/validator/services/validator_service.py lines 421-447): the lazy
global `ResearchValidator()` construction may raise `ValueError` (missing API
keys), answered by the initialization-error dict; otherwise
`get_validated_research` runs. -/
def validate_research (init : Except String Unit)
    (openai_result perplexity_result tavily_result : SearchResult)
    (llm : Except String Synthesis) : ValidatedResearch :=
  match init with
  | Except.error e =>
      { score := "0/3",
        research := "Initialization Error: " ++ e,
        location := "Unknown",
        citations := [] }
  | Except.ok _ =>
      get_validated_research openai_result perplexity_result tavily_result llm

/-! ## Theorems -/

/-- C1: for a verdict with `isValid == false` the handler is meant to return
the streamed rejection built from the verdict's reason and solution
regardless of `param`.  The default branch does exactly that; the explore
branch instead evaluates `output.solution` on a `global_travel_guardrail`,
which has no such field, so the raised `AttributeError` surfaces as HTTP 500
and no rejection stream is produced. -/
theorem c1_invalid_verdict_rejection :
    unified_chat
        { message := "some flagged message", user_id := "u1",
          reference := "ref", param := "explore", threadId := none }
        none
        { isValid := false, reason := "TOXICITY", isTravelRelated := false,
          isPlanRelated := false, travel_type := "none" }
        { isValid := true, reason := "CLEAN", isTravelRelated := false,
          solution := "" }
      = HttpResult.httpError 500
          "'global_travel_guardrail' object has no attribute 'solution'"
    ∧ unified_chat
        { message := "some flagged message", user_id := "u1",
          reference := "ref", param := "default", threadId := none }
        none
        { isValid := true, reason := "CLEAN", isTravelRelated := false,
          isPlanRelated := false, travel_type := "none" }
        { isValid := false, reason := "TOXICITY", isTravelRelated := false,
          solution := "Please rephrase your message." }
      = HttpResult.response
          (ChatResponse.rejectStream "TOXICITY" "Please rephrase your message.") :=
  ⟨rfl, rfl⟩

/-- C2: in explore mode, a valid verdict with `isPlanRelated == true` always
routes to the structured trip extraction (`get_complete_response`), even when
`travel_type == "specific-search-query"`; the explore-extraction branch is
reachable only with `isPlanRelated == false`. -/
theorem c2_explore_plan_priority (req : QueryRequest) (tid : Option String)
    (ev : global_travel_guardrail) (dv : global_input_guardrail)
    (hparam : req.param = "explore") (hvalid : ev.isValid = true) :
    (ev.isPlanRelated = true →
      unified_chat req tid ev dv
        = HttpResult.response
            (ChatResponse.structuredTrip req.message tid req.param))
    ∧ ∀ m t p, unified_chat req tid ev dv
          = HttpResult.response (ChatResponse.structuredExplore m t p) →
        ev.isPlanRelated = false := by
  constructor
  · intro hplan
    simp [unified_chat, hparam, hvalid, hplan]
  · intro m t p hexp
    by_contra hplan
    simp only [Bool.not_eq_false] at hplan
    simp [unified_chat, hparam, hvalid, hplan] at hexp

/-- Witness for C2 at a concrete verdict carrying
`travel_type == "specific-search-query"`. -/
theorem c2_explore_plan_priority_witness :
    unified_chat
        { message := "plan me a trip", user_id := "u1", reference := "ref",
          param := "explore", threadId := none }
        none
        { isValid := true, reason := "CLEAN", isTravelRelated := true,
          isPlanRelated := true, travel_type := "specific-search-query" }
        { isValid := true, reason := "CLEAN", isTravelRelated := false,
          solution := "" }
      = HttpResult.response
          (ChatResponse.structuredTrip "plan me a trip" none "explore") :=
  (c2_explore_plan_priority _ _ _ _ rfl rfl).1 rfl

/-- Helper: once the first non-empty chunk was seen, the loop forwards each
remaining non-empty chunk as one content frame. -/
theorem streamLoop_seen (ttfbVal : Nat) (cs : List String) :
    streamLoop ttfbVal cs true
      = (cs.filter (fun c => c ≠ "")).map Frame.content := by
  induction cs with
  | nil => rfl
  | cons c cs ih =>
    by_cases hc : c = "" <;>
      simp [streamLoop, hc, List.filter_cons, ih]

/-- Helper: with at least one non-empty chunk, the loop starting unseen
emits the one-time TTFB frame and then the content frames. -/
theorem streamLoop_unseen (ttfbVal : Nat) (cs : List String)
    (h : cs.filter (fun c => c ≠ "") ≠ []) :
    streamLoop ttfbVal cs false
      = Frame.ttfb ttfbVal :: (cs.filter (fun c => c ≠ "")).map Frame.content := by
  induction cs with
  | nil => simp at h
  | cons c cs ih =>
    by_cases hc : c = ""
    · simp only [List.filter_cons, hc] at h ⊢
      simpa [streamLoop, hc] using ih (by simpa using h)
    · simp [streamLoop, hc, List.filter_cons, streamLoop_seen]

/-- Helper: with no non-empty chunk the loop emits nothing. -/
theorem streamLoop_empty (ttfbVal : Nat) (cs : List String)
    (h : cs.filter (fun c => c ≠ "") = []) :
    streamLoop ttfbVal cs false = [] := by
  induction cs with
  | nil => rfl
  | cons c cs ih =>
    by_cases hc : c = ""
    · simp only [List.filter_cons, hc] at h
      simpa [streamLoop, hc] using ih (by simpa using h)
    · simp [List.filter_cons, hc] at h

/-- C3 counterexample: on a successful run in which the model produced no
(non-empty) token, `generate_stream` emits `[started, done]` — no
`time_to_first_byte` frame — so the claimed shape
`[started, time_to_first_byte, content*, done]` fails for the empty token
sequence. -/
theorem c3_counterexample :
    (generate_stream (ModelRun.ok []) (fun i => i) none).map Frame.kind
        = [FrameKind.started, FrameKind.done]
    ∧ FrameKind.ttfb
        ∉ (generate_stream (ModelRun.ok []) (fun i => i) none).map Frame.kind := by
  decide

/-- C3 (amended): for every successful run in which the model produced at
least one non-empty token, the emitted frames are exactly
`started :: time_to_first_byte :: content+ ++ [done]`, and the done frame's
`total_time` is at least the `time_to_first_byte` value for every monotone
clock.  (A run with no non-empty token emits `[started, done]`,
cf. the counterexample.) -/
theorem c3_stream_success_frames (clock : Nat → Nat) (hm : Monotone clock)
    (chunks : List String) (tid : Option String)
    (h : chunks.filter (fun c => c ≠ "") ≠ []) :
    generate_stream (ModelRun.ok chunks) clock tid
      = Frame.started (clock 0) tid
        :: Frame.ttfb (clock 1 - clock 0)
        :: (chunks.filter (fun c => c ≠ "")).map Frame.content
        ++ [Frame.done (clock 2 - clock 0)]
    ∧ clock 1 - clock 0 ≤ clock 2 - clock 0 := by
  constructor
  · have hex : ∃ x ∈ chunks, ¬x = "" := by
      rcases List.exists_mem_of_ne_nil _ h with ⟨f, hf⟩
      rcases List.mem_filter.mp hf with ⟨hmem, hne⟩
      exact ⟨f, hmem, by simpa using hne⟩
    simp [generate_stream, hex, streamLoop_unseen _ _ h]
  · exact Nat.sub_le_sub_right (hm (by norm_num)) _

/-- Witness for C3 (amended) at the one-token run `["hi"]` with the identity
clock. -/
theorem c3_stream_success_frames_witness :
    generate_stream (ModelRun.ok ["hi"]) (fun i => i) none
      = Frame.started 0 none
        :: Frame.ttfb (1 - 0)
        :: (["hi"].filter (fun c => c ≠ "")).map Frame.content
        ++ [Frame.done (2 - 0)]
    ∧ 1 - 0 ≤ 2 - 0 :=
  c3_stream_success_frames (fun i => i) (fun _ _ hab => hab) ["hi"] none
    (by decide)

/-- C4 counterexample: a run that fails before the first frame (an exception
in `add_message`, `get_message`, `research_further` or
`Runner.run_streamed`) emits the single frame `{error}` — the sequence is
terminated by an error frame, not by a DONE frame. -/
theorem c4_counterexample :
    (generate_stream (ModelRun.failBefore "boom") (fun i => i) none).map
        Frame.kind
      = [FrameKind.error]
    ∧ FrameKind.done
        ∉ (generate_stream (ModelRun.failBefore "boom") (fun i => i) none).map
            Frame.kind := by
  decide

/-- Helper: the token loop emits only TTFB and content frames. -/
theorem streamLoop_kinds (ttfbVal : Nat) (cs : List String) (seen : Bool) :
    ∀ f ∈ streamLoop ttfbVal cs seen,
      f.kind = FrameKind.ttfb ∨ f.kind = FrameKind.content := by
  induction cs generalizing seen with
  | nil => intro f hf; simp [streamLoop] at hf
  | cons c cs ih =>
    intro f hf
    by_cases hc : c = ""
    · exact ih seen f (by simpa [streamLoop, hc] using hf)
    · cases seen with
      | true =>
        rw [streamLoop, if_neg hc, if_pos rfl] at hf
        rcases List.mem_cons.mp hf with rfl | hf
        · exact Or.inr rfl
        · exact ih true f hf
      | false =>
        rw [streamLoop, if_neg hc] at hf
        simp only [Bool.false_eq_true, if_false] at hf
        rcases List.mem_cons.mp hf with rfl | hf
        · exact Or.inl rfl
        · rcases List.mem_cons.mp hf with rfl | hf
          · exact Or.inr rfl
          · exact ih true f hf

/-- Helper: the last element of `x :: l ++ [a]` is `a`. -/
theorem getLast?_cons_append_singleton {α : Type} (x a : α) (l : List α) :
    (x :: (l ++ [a])).getLast? = some a := by
  induction l generalizing x with
  | nil => rfl
  | cons y l ih =>
    rw [List.cons_append]
    exact ih y

/-- Helper: frame kinds of the token loop are TTFB or content. -/
theorem streamLoop_kinds_mem (ttfbVal : Nat) (cs : List String) (seen : Bool)
    (k : FrameKind)
    (hk : k ∈ (streamLoop ttfbVal cs seen).map Frame.kind) :
    k = FrameKind.ttfb ∨ k = FrameKind.content := by
  rcases List.mem_map.mp hk with ⟨f, hf, rfl⟩
  exact streamLoop_kinds ttfbVal cs seen f hf

/-- C4 (amended): every run of the streaming responder, successful or
failing, emits a sequence terminated by exactly one terminal frame — a DONE
frame on the successful path, a single `{error}` frame on the failure path —
and no run contains both a DONE and an error frame. -/
theorem c4_stream_terminal_frame (run : ModelRun) (clock : Nat → Nat)
    (tid : Option String) :
    (((generate_stream run clock tid).map Frame.kind).getLast?
        = some FrameKind.done
      ∨ ((generate_stream run clock tid).map Frame.kind).getLast?
          = some FrameKind.error)
    ∧ ¬(FrameKind.done ∈ (generate_stream run clock tid).map Frame.kind
        ∧ FrameKind.error ∈ (generate_stream run clock tid).map Frame.kind)
    ∧ (∀ chunks, run = ModelRun.ok chunks →
        ((generate_stream run clock tid).map Frame.kind).getLast?
          = some FrameKind.done)
    ∧ (∀ msg, run = ModelRun.failBefore msg →
        ((generate_stream run clock tid).map Frame.kind).getLast?
          = some FrameKind.error)
    ∧ (∀ chunks msg, run = ModelRun.failMid chunks msg →
        ((generate_stream run clock tid).map Frame.kind).getLast?
          = some FrameKind.error) := by
  cases run with
  | ok chunks =>
    have hkinds : (generate_stream (ModelRun.ok chunks) clock tid).map Frame.kind
        = FrameKind.started
          :: ((streamLoop (clock 1 - clock 0) chunks false).map Frame.kind
              ++ [FrameKind.done]) := by
      simp [generate_stream, Frame.kind]
    have hlast : ((generate_stream (ModelRun.ok chunks) clock tid).map
        Frame.kind).getLast? = some FrameKind.done := by
      rw [hkinds]; exact getLast?_cons_append_singleton _ _ _
    refine ⟨Or.inl hlast, ?_, fun _ _ => hlast, by simp, by simp⟩
    rintro ⟨-, herr⟩
    rw [hkinds] at herr
    rcases List.mem_cons.mp herr with h | h
    · exact FrameKind.noConfusion h
    · rcases List.mem_append.mp h with h | h
      · rcases streamLoop_kinds_mem _ _ _ _ h with h | h <;>
          exact FrameKind.noConfusion h
      · rcases List.mem_singleton.mp h with h
        exact FrameKind.noConfusion h
  | failBefore msg =>
    refine ⟨Or.inr rfl, ?_, by simp, fun _ _ => rfl, by simp⟩
    rintro ⟨hdone, -⟩
    simp [generate_stream, Frame.kind] at hdone
  | failMid chunks msg =>
    have hkinds : (generate_stream (ModelRun.failMid chunks msg) clock tid).map
        Frame.kind
        = FrameKind.started
          :: ((streamLoop (clock 1 - clock 0) chunks false).map Frame.kind
              ++ [FrameKind.error]) := by
      simp [generate_stream, Frame.kind]
    have hlast : ((generate_stream (ModelRun.failMid chunks msg) clock tid).map
        Frame.kind).getLast? = some FrameKind.error := by
      rw [hkinds]; exact getLast?_cons_append_singleton _ _ _
    refine ⟨Or.inr hlast, ?_, by simp, by simp, fun _ _ _ => hlast⟩
    rintro ⟨hdone, -⟩
    rw [hkinds] at hdone
    rcases List.mem_cons.mp hdone with h | h
    · exact FrameKind.noConfusion h
    · rcases List.mem_append.mp h with h | h
      · rcases streamLoop_kinds_mem _ _ _ _ h with h | h <;>
          exact FrameKind.noConfusion h
      · rcases List.mem_singleton.mp h with h
        exact FrameKind.noConfusion h

/-- Witness for C4 (amended): a concrete mid-stream failure terminates with
the error frame. -/
theorem c4_stream_terminal_frame_witness :
    ((generate_stream (ModelRun.failMid ["x"] "oops") (fun i => i) none).map
        Frame.kind).getLast? = some FrameKind.error :=
  (c4_stream_terminal_frame (ModelRun.failMid ["x"] "oops") (fun i => i)
      none).2.2.2.2 ["x"] "oops" rfl

/-- Arity contract stated by the spec: `generic` yields exactly 5
sub-queries, `specific` exactly 1, `ignore` exactly 0. -/
def arityOk (r : QueryClassification) : Bool :=
  match r.type with
  | QueryType.generic => r.queries.length = 5
  | QueryType.specific => r.queries.length = 1
  | QueryType.ignore => r.queries.length = 0

/-- The `ValueError` message `_validate_response` raises for the violated
type. -/
def arityErrorMsg (r : QueryClassification) : String :=
  match r.type with
  | QueryType.generic =>
      "Generic query should have 5 sub-queries, got "
        ++ toString r.queries.length
  | QueryType.specific =>
      "Specific query should have 1 query, got " ++ toString r.queries.length
  | QueryType.ignore =>
      "Ignore type should have 0 queries, got " ++ toString r.queries.length

/-- C5: the classification stage enforces the arity contract — a parsed
classification violating it makes `classify_query` raise (propagated as the
wrapped classification failure), a conforming one is returned unchanged as
`{type, queries}` — and a classification failure reaches the background
pipeline as an exception, so no research task is fanned out. -/
theorem c5_classification_arity (r : QueryClassification) :
    OpenAIService.classify_query (Except.ok r)
      = (if arityOk r then
          Except.ok { type := r.type.value, queries := r.queries }
        else Except.error ("Error classifying query: " ++ arityErrorMsg r))
    ∧ process_in_background_fanout (OpenAIService.classify_query (Except.ok r))
      = (if arityOk r then
          (if r.queries.isEmpty then [] else r.queries)
        else []) := by
  have hmain : OpenAIService.classify_query (Except.ok r)
      = (if arityOk r then
          Except.ok { type := r.type.value, queries := r.queries }
        else Except.error ("Error classifying query: " ++ arityErrorMsg r)) := by
    cases htype : r.type <;>
      by_cases hlen : arityOk r <;>
        simp_all [OpenAIService.classify_query, OpenAIService.validate_response,
          arityOk, arityErrorMsg, QueryType.value]
  refine ⟨hmain, ?_⟩
  rw [hmain]
  by_cases hlen : arityOk r <;>
    simp [hlen, process_in_background_fanout]

/-- C6: with fewer than two of the three backend results both successful and
content-bearing, the synthesis LLM is never consulted and
`get_validated_research` returns the zero-confidence placeholder
(`score "0/3"`, an error message as research, location `"Unknown"`); with at
least two, the synthesis call's outcome is used. -/
theorem c6_synthesis_quorum (o p t : SearchResult)
    (llm : Except String Synthesis) :
    (([o, p, t].filter (fun r => r.success && r.content ≠ "")).length < 2 →
      calculate_similarity_and_synthesize [o, p, t] llm
          = Except.error
              "Need at least 2 successful sources with content to synthesize."
        ∧ (get_validated_research o p t llm).score = "0/3"
        ∧ (get_validated_research o p t llm).research
            = "Error: Need at least 2 successful sources with content to synthesize."
        ∧ (get_validated_research o p t llm).location = "Unknown")
    ∧ (2 ≤ ([o, p, t].filter (fun r => r.success && r.content ≠ "")).length →
      calculate_similarity_and_synthesize [o, p, t] llm = llm) := by
  constructor
  · intro h
    have hcalc : calculate_similarity_and_synthesize [o, p, t] llm
        = Except.error
            "Need at least 2 successful sources with content to synthesize." := by
      simp only [calculate_similarity_and_synthesize, if_pos h]
    exact ⟨hcalc, by simp [get_validated_research, hcalc],
      by simp [get_validated_research, hcalc],
      by simp [get_validated_research, hcalc]⟩
  · intro h
    simp only [calculate_similarity_and_synthesize, if_neg (Nat.not_lt.mpr h)]

/-- Witness for C6 at a concrete triple with exactly one content-bearing
success (one backend failed, one succeeded with empty content). -/
theorem c6_synthesis_quorum_witness :
    calculate_similarity_and_synthesize
        [{ success := false, source := "OpenAI", content := "", citations := [] },
         { success := true, source := "Perplexity", content := "some findings",
           citations := ["https://example.com"] },
         { success := true, source := "Tavily", content := "", citations := [] }]
        (Except.ok
          { similarity_score := some "3", combined_research := some "r",
            location := some "L" })
      = Except.error
          "Need at least 2 successful sources with content to synthesize." :=
  ((c6_synthesis_quorum _ _ _ _).1 (by decide)).1


/-- Helper: the location ladder never yields the empty string. -/
theorem locationLadder_ne_empty (locOpt : Option String) :
    locationLadder locOpt ≠ "" := by
  cases locOpt with
  | none => decide
  | some l =>
    simp only [locationLadder]
    by_cases hcond : l = "" ∨ l ∈ ["null", "None", "", "N/A", "n/a"]
    · rw [if_pos hcond]; decide
    · rw [if_neg hcond]
      by_cases hstrip : pyStrip l = ""
      · rw [if_pos hstrip]; decide
      · rw [if_neg hstrip]; exact hstrip

/-- Helper: a missing, sentinel, or whitespace-only location is replaced by
the sentinel `"Unknown"`. -/
theorem locationLadder_unknown (locOpt : Option String)
    (h : match locOpt with
         | none => True
         | some l => l ∈ ["null", "None", "", "N/A", "n/a"] ∨ pyStrip l = "") :
    locationLadder locOpt = "Unknown" := by
  cases locOpt with
  | none => decide
  | some l =>
    simp only [locationLadder]
    rcases h with hmem | hws
    · rw [if_pos (Or.inr hmem)]; decide
    · by_cases hcond : l = "" ∨ l ∈ ["null", "None", "", "N/A", "n/a"]
      · rw [if_pos hcond]; decide
      · rw [if_neg hcond, if_pos hws]

/-- Spec-side predicate: the synthesis stage produced no usable location —
the stage failed outright, or the parsed JSON is missing the field / has it
null, or holds one of the null-ish sentinels, or only whitespace. -/
def locationUndetermined (synthesis_result : Except String Synthesis) : Prop :=
  match synthesis_result with
  | Except.error _ => True
  | Except.ok s =>
      match s.location with
      | none => True
      | some l => l ∈ ["null", "None", "", "N/A", "n/a"] ∨ pyStrip l = ""

/-- C7: for every synthesis outcome and initialization outcome, the dict
returned by `validate_research` has a non-empty `location` string, and it is
the sentinel `"Unknown"` whenever no location was determined (initialization
failure, synthesis failure, or a missing / null / sentinel / whitespace
location). -/
theorem c7_location_nonempty (init : Except String Unit)
    (o p t : SearchResult) (llm : Except String Synthesis) :
    (validate_research init o p t llm).location ≠ ""
    ∧ (∀ e, init = Except.error e →
        (validate_research init o p t llm).location = "Unknown")
    ∧ (init = Except.ok () →
        locationUndetermined
          (calculate_similarity_and_synthesize [o, p, t] llm) →
        (validate_research init o p t llm).location = "Unknown") := by
  cases init with
  | error e =>
    exact ⟨by simp [validate_research], fun e' he => by simp [validate_research],
      fun h => by simp at h⟩
  | ok u =>
    cases u
    have hval : validate_research (Except.ok ()) o p t llm
        = get_validated_research o p t llm := rfl
    cases hcalc : calculate_similarity_and_synthesize [o, p, t] llm with
    | error msg =>
      have hloc : (get_validated_research o p t llm).location = "Unknown" := by
        simp [get_validated_research, hcalc]
      exact ⟨by rw [hval, hloc]; decide, fun e' he => by simp at he,
        fun _ _ => by rw [hval]; exact hloc⟩
    | ok s =>
      have hloc : (get_validated_research o p t llm).location
          = locationLadder s.location := by
        simp [get_validated_research, hcalc]
      refine ⟨by rw [hval, hloc]; exact locationLadder_ne_empty _,
        fun e' he => by simp at he, fun _ hundet => ?_⟩
      rw [hval, hloc]
      exact locationLadder_unknown _ hundet

/-- Witness for C7 at a concrete whitespace-only location. -/
theorem c7_location_nonempty_witness :
    (validate_research (Except.ok ())
        { success := true, source := "OpenAI", content := "c1", citations := [] }
        { success := true, source := "Perplexity", content := "c2", citations := [] }
        { success := false, source := "Tavily", content := "", citations := [] }
        (Except.ok
          { similarity_score := some "2", combined_research := some "r",
            location := some "   " })).location = "Unknown" :=
  (c7_location_nonempty _ _ _ _ _).2.2 rfl (Or.inr (by decide))

/-- C8: every error raised inside a structured responder is re-raised as a
single exception whose message starts with `"Agent error: "`, no structured
result is returned in that case, and the `/chat` handler surfaces it as
HTTP 500 carrying that message — for both the trip and the explore
extraction, whether the agent call itself or the memory write failed. -/
theorem c8_agent_error_wrapped (e full : String)
    (add_msg : Except String Unit) (clock : Nat → Nat)
    (thread_id : Option String) (mode : String) :
    get_complete_response (Except.error e) add_msg clock thread_id mode
        = Except.error ("Agent error: " ++ e)
    ∧ get_complete_response (Except.ok full) (Except.error e) clock thread_id
        mode = Except.error ("Agent error: " ++ e)
    ∧ get_complete_response_explore (Except.error e) add_msg clock thread_id
        mode = Except.error ("Agent error: " ++ e)
    ∧ get_complete_response_explore (Except.ok full) (Except.error e) clock
        thread_id mode = Except.error ("Agent error: " ++ e)
    ∧ structured_call
        (get_complete_response (Except.error e) add_msg clock thread_id mode)
        = StructuredOutcome.httpError 500 ("Agent error: " ++ e)
    ∧ structured_call
        (get_complete_response_explore (Except.error e) add_msg clock
          thread_id mode)
        = StructuredOutcome.httpError 500 ("Agent error: " ++ e) :=
  ⟨rfl, rfl, rfl, rfl, rfl, rfl⟩

/-- C9 counterexample: against a working memory store holding user `u1` who
already has thread `existing-thread`, two consecutive `/chat` setups create
two fresh, distinct threads (`check_user` runs `uuid.uuid4().hex` and
`client.thread.create` unconditionally), and the request's supplied
`threadId` is not selected. -/
theorem c9_counterexample :
    (unified_chat_thread_setup zepStore
        { message := "hi", user_id := "u1", reference := "r", param := "p",
          threadId := some "existing-thread" } "t1"
        { users := ["u1"], threads := [("existing-thread", "u1")] }).1
      = some "t1"
    ∧ (unified_chat_thread_setup zepStore
        { message := "hi again", user_id := "u1", reference := "r",
          param := "p", threadId := some "existing-thread" } "t2"
        (unified_chat_thread_setup zepStore
          { message := "hi", user_id := "u1", reference := "r", param := "p",
            threadId := some "existing-thread" } "t1"
          { users := ["u1"], threads := [("existing-thread", "u1")] }).2).1
      = some "t2"
    ∧ some ("t1" : String) ≠ some "t2"
    ∧ some ("t1" : String) ≠ some "existing-thread"
    ∧ (unified_chat_thread_setup zepStore
        { message := "hi", user_id := "u1", reference := "r", param := "p",
          threadId := some "existing-thread" } "t1"
        { users := ["u1"], threads := [("existing-thread", "u1")] }).2.threads
      = [("t1", "u1"), ("existing-thread", "u1")] := by
  refine ⟨rfl, rfl, ?_, ?_, rfl⟩ <;> decide

/-- C9 (amended): the user record is created lazily — `client.user.add` runs
only when the user lookup fails — but a fresh conversation thread is created
on every `/chat` request even when the user (and a thread) already exists,
so consecutive requests operate on distinct thread ids; the handler's thread
setup reads only `request.user_id`, ignoring the supplied `threadId`. -/
theorem c9_thread_created_per_request (st : MemState) (user_id fresh : String)
    (h : user_id ≠ "") :
    (user_id ∈ st.users →
      check_user zepStore user_id fresh st
        = (some fresh, { st with threads := (fresh, user_id) :: st.threads }))
    ∧ (user_id ∉ st.users →
      check_user zepStore user_id fresh st
        = (some fresh,
           { users := user_id :: st.users,
             threads := (fresh, user_id) :: st.threads }))
    ∧ ∀ r1 r2 : QueryRequest, r1.user_id = r2.user_id →
        unified_chat_thread_setup zepStore r1 fresh st
          = unified_chat_thread_setup zepStore r2 fresh st := by
  refine ⟨fun hu => ?_, fun hu => ?_, fun r1 r2 hr => ?_⟩
  · simp [check_user, zepStore, h, hu]
  · simp [check_user, zepStore, h, hu]
  · simp [unified_chat_thread_setup, hr]

/-- Witness for C9 (amended): user `u1` is registered and already owns a
thread; the call still creates and returns the fresh thread `t9`. -/
theorem c9_thread_created_per_request_witness :
    check_user zepStore "u1" "t9"
        { users := ["u1"], threads := [("t0", "u1")] }
      = (some "t9", { users := ["u1"], threads := [("t9", "u1"), ("t0", "u1")] }) :=
  (c9_thread_created_per_request
      { users := ["u1"], threads := [("t0", "u1")] } "u1" "t9"
      (by decide)).1 (by decide)

/-- Memory store whose user lookup always raises (e.g. a transport error)
while user creation and thread creation work: the bare inner `except` of
`check_user` treats the lookup failure as "user doesn't exist" and the call
still succeeds. -/
def flakyLookupStore : ZepClient where
  user_get := fun _ st => Except.error ("connection reset by peer", st)
  user_add := fun user_id st =>
    Except.ok ((), { st with users := user_id :: st.users })
  thread_create := fun thread_id user_id st =>
    Except.ok ((), { st with threads := (thread_id, user_id) :: st.threads })

/-- C10 counterexample: a memory-store failure in the user lookup does not
make `check_user` return `None` — the bare `except` treats it as a missing
user, re-creates the user and returns a fresh thread id. -/
theorem c10_counterexample :
    (check_user flakyLookupStore "u1" "t1"
        { users := ["u1"], threads := [] }).1 = some "t1"
    ∧ (some ("t1" : String)) ≠ none := by
  refine ⟨rfl, ?_⟩; decide

/-- C10 (amended): `check_user` never raises — it returns `None` for an
empty `user_id` and whenever user creation or thread creation fails; a
user-lookup failure is treated as "user does not exist" and triggers a
creation attempt, so it yields `None` only when that recovery path also
fails.  The `/chat` handler proceeds with whatever thread id results: its
error outcomes are independent of the thread id, so a `None` thread never
fails the request at the user-setup step. -/
theorem c10_check_user_never_raises (client : ZepClient)
    (user_id fresh : String) (st : MemState) :
    (user_id = "" → check_user client user_id fresh st = (none, st))
    ∧ (∀ e1 st1 e2 st2, user_id ≠ "" →
        client.user_get user_id st = Except.error (e1, st1) →
        client.user_add user_id st1 = Except.error (e2, st2) →
        check_user client user_id fresh st = (none, st2))
    ∧ (∀ st1 e2 st2, user_id ≠ "" →
        client.user_get user_id st = Except.ok ((), st1) →
        client.thread_create fresh user_id st1 = Except.error (e2, st2) →
        check_user client user_id fresh st = (none, st2))
    ∧ (∀ e1 st1 st2 e3 st3, user_id ≠ "" →
        client.user_get user_id st = Except.error (e1, st1) →
        client.user_add user_id st1 = Except.ok ((), st2) →
        client.thread_create fresh user_id st2 = Except.error (e3, st3) →
        check_user client user_id fresh st = (none, st3))
    ∧ ∀ (req : QueryRequest) (tid : Option String)
        (ev : global_travel_guardrail) (dv : global_input_guardrail)
        (c : Nat) (d : String),
        unified_chat req tid ev dv = HttpResult.httpError c d ↔
          unified_chat req none ev dv = HttpResult.httpError c d := by
  refine ⟨fun h => by simp [check_user, h], ?_, ?_, ?_, ?_⟩
  · intro e1 st1 e2 st2 h hget hadd
    simp [check_user, h, hget, hadd]
  · intro st1 e2 st2 h hget hcreate
    simp [check_user, h, hget, hcreate]
  · intro e1 st1 st2 e3 st3 h hget hadd hcreate
    simp [check_user, h, hget, hadd, hcreate]
  · intro req tid ev dv c d
    unfold unified_chat
    split_ifs <;> simp_all [global_travel_guardrail.solutionAttr]

/-- Memory store whose thread creation always raises. -/
def downThreadStore : ZepClient where
  user_get := fun user_id st =>
    if user_id ∈ st.users then Except.ok ((), st)
    else Except.error ("user " ++ user_id ++ " not found", st)
  user_add := fun user_id st =>
    Except.ok ((), { st with users := user_id :: st.users })
  thread_create := fun _ _ st =>
    Except.error ("thread service unavailable", st)

/-- Witness for C10 (amended): a thread-creation failure makes `check_user`
return `None` instead of raising. -/
theorem c10_check_user_never_raises_witness :
    check_user downThreadStore "u1" "t1" { users := ["u1"], threads := [] }
      = (none, { users := ["u1"], threads := [] }) :=
  (c10_check_user_never_raises downThreadStore "u1" "t1"
      { users := ["u1"], threads := [] }).2.2.1
    { users := ["u1"], threads := [] } "thread service unavailable"
    { users := ["u1"], threads := [] } (by decide) rfl rfl
